import Mathlib

/-!
Shallow embedding of the feature-flag evaluation and rollout engine of the
jurisai-monorepo backend:

* `src/apps/backend/src/models/feature_flag.py` — the `FeatureFlag` model and
  its evaluator `is_active_for_user`;
* `src/apps/backend/src/services/feature_flags.py` — the `FeatureFlagService`
  (cache-aware `is_enabled`, administrative `create_flag` / `update_flag` /
  `delete_flag`, cache invalidation).

Python machine-level details are modelled as follows: `float` percentages as
`Rat` (Python compares `int < float` exactly on the values in range here),
`datetime` values as `Int` timestamps with the current time passed explicitly,
MD5 (from `hashlib`) implemented in full over byte lists, and exceptions as
explicit failure flags on an environment record, with `try/except` blocks
becoming the corresponding case splits.  Strings are modelled over their
character lists; the Unicode-dependent Python predicates (`str.isalnum`,
`str.lower`) are modelled on their ASCII fragment.
-/

set_option maxRecDepth 100000

namespace JurisAI

/-! ## MD5 (hashlib.md5), over byte lists

The evaluator buckets a user by
`int(hashlib.md5(f"{self.key}:{user_id}".encode()).hexdigest(), 16) % 100`.
We implement MD5 (RFC 1321) directly: all words are `Nat` reduced mod 2^32.
-/

/-- Truncate to a 32-bit word. -/
def m32 (n : Nat) : Nat := n % 4294967296

/-- 32-bit left rotation (inputs are 32-bit words, `n ≤ 31`). -/
def rotl32 (x n : Nat) : Nat := m32 ((x <<< n) ||| (x >>> (32 - n)))

/-- The 64 MD5 round constants `T[i] = floor(2^32 * |sin(i+1)|)` (RFC 1321). -/
def md5K : List Nat :=
  [0xd76aa478, 0xe8c7b756, 0x242070db, 0xc1bdceee,
   0xf57c0faf, 0x4787c62a, 0xa8304613, 0xfd469501,
   0x698098d8, 0x8b44f7af, 0xffff5bb1, 0x895cd7be,
   0x6b901122, 0xfd987193, 0xa679438e, 0x49b40821,
   0xf61e2562, 0xc040b340, 0x265e5a51, 0xe9b6c7aa,
   0xd62f105d, 0x02441453, 0xd8a1e681, 0xe7d3fbc8,
   0x21e1cde6, 0xc33707d6, 0xf4d50d87, 0x455a14ed,
   0xa9e3e905, 0xfcefa3f8, 0x676f02d9, 0x8d2a4c8a,
   0xfffa3942, 0x8771f681, 0x6d9d6122, 0xfde5380c,
   0xa4beea44, 0x4bdecfa9, 0xf6bb4b60, 0xbebfbc70,
   0x289b7ec6, 0xeaa127fa, 0xd4ef3085, 0x04881d05,
   0xd9d4d039, 0xe6db99e5, 0x1fa27cf8, 0xc4ac5665,
   0xf4292244, 0x432aff97, 0xab9423a7, 0xfc93a039,
   0x655b59c3, 0x8f0ccc92, 0xffeff47d, 0x85845dd1,
   0x6fa87e4f, 0xfe2ce6e0, 0xa3014314, 0x4e0811a1,
   0xf7537e82, 0xbd3af235, 0x2ad7d2bb, 0xeb86d391]

/-- The 64 MD5 per-round shift amounts (RFC 1321). -/
def md5S : List Nat :=
  [7, 12, 17, 22, 7, 12, 17, 22, 7, 12, 17, 22, 7, 12, 17, 22,
   5, 9, 14, 20, 5, 9, 14, 20, 5, 9, 14, 20, 5, 9, 14, 20,
   4, 11, 16, 23, 4, 11, 16, 23, 4, 11, 16, 23, 4, 11, 16, 23,
   6, 10, 15, 21, 6, 10, 15, 21, 6, 10, 15, 21, 6, 10, 15, 21]

/-- The MD5 round mixing function for step `i` on words `b`, `c`, `d`. -/
def md5F (i b c d : Nat) : Nat :=
  if i < 16 then (b &&& c) ||| ((b ^^^ 4294967295) &&& d)
  else if i < 32 then (d &&& b) ||| ((d ^^^ 4294967295) &&& c)
  else if i < 48 then b ^^^ c ^^^ d
  else c ^^^ (b ||| (d ^^^ 4294967295))

/-- The MD5 message-word index used at step `i`. -/
def md5G (i : Nat) : Nat :=
  if i < 16 then i
  else if i < 32 then (5 * i + 1) % 16
  else if i < 48 then (3 * i + 5) % 16
  else (7 * i) % 16

/-- `k` little-endian bytes of `n`. -/
def leBytes : Nat → Nat → List Nat
  | 0, _ => []
  | k + 1, n => n % 256 :: leBytes k (n / 256)

/-- A 32-bit word from (up to) 4 little-endian bytes. -/
def leWord (bs : List Nat) : Nat := bs.foldr (fun b acc => acc * 256 + b) 0

/-- The 16 little-endian 32-bit message words of one 64-byte chunk. -/
def chunkWords (chunk : List Nat) : List Nat :=
  (List.range 16).map (fun j => leWord ((chunk.drop (4 * j)).take 4))

/-- One MD5 step: state `(a, b, c, d)` at step `i` with message words `M`. -/
def md5Step (M : List Nat) (st : Nat × Nat × Nat × Nat) (i : Nat) :
    Nat × Nat × Nat × Nat :=
  match st with
  | (a, b, c, d) =>
    let f := m32 (md5F i b c d + a + md5K.getD i 0 + M.getD (md5G i) 0)
    (d, m32 (b + rotl32 f (md5S.getD i 0)), b, c)

/-- Process one 64-byte chunk: 64 steps, then add into the running state. -/
def md5Chunk (st : Nat × Nat × Nat × Nat) (chunk : List Nat) :
    Nat × Nat × Nat × Nat :=
  let M := chunkWords chunk
  match st, (List.range 64).foldl (md5Step M) st with
  | (a0, b0, c0, d0), (a, b, c, d) =>
    (m32 (a0 + a), m32 (b0 + b), m32 (c0 + c), m32 (d0 + d))

/-- Split a byte list into 64-byte chunks (fuel-based so the kernel can
reduce it; `fuel = bs.length` always suffices since each chunk is nonempty). -/
def toChunksAux : Nat → List Nat → List (List Nat)
  | 0, _ => []
  | _, [] => []
  | fuel + 1, bs => bs.take 64 :: toChunksAux fuel (bs.drop 64)

/-- Split a byte list into 64-byte chunks. -/
def toChunks (bs : List Nat) : List (List Nat) := toChunksAux bs.length bs

/-- MD5 padding: a `0x80` byte, zeros to 56 mod 64, then the 64-bit
little-endian bit length. -/
def md5Pad (msg : List Nat) : List Nat :=
  let len := msg.length
  let zeros := (56 + 64 - ((len + 1) % 64)) % 64
  msg ++ [128] ++ List.replicate zeros 0 ++ leBytes 8 ((len * 8) % 18446744073709551616)

/-- The 16-byte MD5 digest of a byte list. -/
def md5Digest (msg : List Nat) : List Nat :=
  match (toChunks (md5Pad msg)).foldl md5Chunk
      (1732584193, 4023233417, 2562383102, 271733878) with
  | (a, b, c, d) => leBytes 4 a ++ leBytes 4 b ++ leBytes 4 c ++ leBytes 4 d

/-- Python's `int(hexdigest, 16)`: the digest bytes read as one big-endian
integer (the hex string lists the digest bytes in order). -/
def md5IntOfBytes (msg : List Nat) : Nat :=
  (md5Digest msg).foldl (fun acc b => acc * 256 + b) 0

/-- UTF-8 encoding of one character (Python `str.encode()`). -/
def utf8EncodeChar (c : Char) : List Nat :=
  let n := c.toNat
  if n < 128 then [n]
  else if n < 2048 then [192 + n / 64, 128 + n % 64]
  else if n < 65536 then [224 + n / 4096, 128 + (n / 64) % 64, 128 + n % 64]
  else [240 + n / 262144, 128 + (n / 4096) % 64, 128 + (n / 64) % 64, 128 + n % 64]

/-- UTF-8 bytes of a string (Python `str.encode()`). -/
def strBytes (s : String) : List Nat := (s.data.map utf8EncodeChar).flatten

/-- `int(hashlib.md5(s.encode()).hexdigest(), 16)`. -/
def md5int (s : String) : Nat := md5IntOfBytes (strBytes s)

/-- The bucketing computation of `FeatureFlag.is_active_for_user`
(feature_flag.py line 101): `int(md5(key + ":" + user_id), 16) % 100`. -/
def bucket (flagKey userId : String) : Nat :=
  md5int (flagKey ++ ":" ++ userId) % 100

-- RFC 1321 test vectors, checking the MD5 embedding itself.
example : md5IntOfBytes [] = 0xd41d8cd98f00b204e9800998ecf8427e := by decide
example : md5int "abc" = 0x900150983cd24fb0d6963f7d28e17f72 := by decide

-- Cross-checks against CPython: hashlib.md5 of these inputs, mod 100.
example : bucket "dark_mode" "u42" = 29 := by decide
example : bucket "dark_mode" "u99" = 93 := by decide

/-! ## The `FeatureFlag` model (models/feature_flag.py)

Nullable JSON list/dict columns are modelled as plain lists (Python treats
`None` and `[]`/`{}` identically under the truthiness guards the evaluator
uses).  `datetime` columns are `Option Int`; `rollout_percentage` (a Python
float in [0,100]) is a `Rat`.  Audit columns (`id`, `created_at`, …) are
omitted: the evaluator never reads them. -/

structure FeatureFlag where
  key : String
  name : String
  enabled : Bool
  rollout_percentage : Rat
  targeted_user_ids : List String
  targeted_user_groups : List String
  excluded_user_ids : List String
  environment : String
  context_filters : List (String × String)
  start_date : Option Int
  end_date : Option Int
deriving DecidableEq, Repr

/-- The `@validates('rollout_percentage')` check (feature_flag.py lines
46-51): `value < 0 or value > 100` raises `ValueError`.  `true` here means
the value passes. -/
def validate_rollout_percentage (value : Rat) : Bool :=
  !(value < 0 || value > 100)

/-- ASCII fragment of Python's `str.isalnum` on one character. -/
def pyIsAlnumChar (c : Char) : Bool := c.isAlpha || c.isDigit

/-- ASCII fragment of Python's `str.isalnum`: nonempty and all alphanumeric. -/
def pyIsAlnum (s : String) : Bool := !s.isEmpty && s.data.all pyIsAlnumChar

/-- `value.replace('_', '').replace('-', '')`. -/
def stripUnderscoreHyphen (s : String) : String :=
  ⟨s.data.filter (fun c => !(c == '_' || c == '-'))⟩

/-- The `@validates('key')` check (feature_flag.py lines 53-58):
`not value or not value.replace('_','').replace('-','').isalnum()` raises
`ValueError`.  `true` here means the key passes. -/
def validate_key (value : String) : Bool :=
  !(value.isEmpty || !pyIsAlnum (stripUnderscoreHyphen value))

/-- `FeatureFlag.is_active_for_user` (feature_flag.py lines 60-104),
with `datetime.now()` passed in explicitly as `now`.

Faithful to the source: the `context` argument is accepted but never used —
the method body contains no check of `self.context_filters` against it.
Likewise `self.environment` is never read. -/
def FeatureFlag.is_active_for_user (flag : FeatureFlag) (now : Int)
    (user_id : String) (user_groups : List String)
    (context : List (String × String)) : Bool :=
  -- Check if flag is globally enabled
  if !flag.enabled then false
  -- Check time-based activation
  else if (match flag.start_date with
           | some s => decide (now < s)
           | none => false) then false
  else if (match flag.end_date with
           | some e => decide (now > e)
           | none => false) then false
  -- Check explicit exclusions
  else if !flag.excluded_user_ids.isEmpty
       && flag.excluded_user_ids.contains user_id then false
  -- Check explicit inclusions (override percentage rollout)
  else if !flag.targeted_user_ids.isEmpty
       && flag.targeted_user_ids.contains user_id then true
  -- Check group targeting
  else if !flag.targeted_user_groups.isEmpty && !user_groups.isEmpty
       && user_groups.any (fun g => flag.targeted_user_groups.contains g) then true
  -- Check percentage rollout
  else if flag.rollout_percentage > 0 then
    decide ((bucket flag.key user_id : Rat) < flag.rollout_percentage)
  else false

/-! ## The `FeatureFlagService` (services/feature_flags.py)

The service's surroundings are modelled by an explicit environment `Env`:

* `redisAvailable` — whether `redis_client` is truthy (`if redis_client:`);
* `cacheFails` — whether Redis calls raise (each such call sits in its own
  `try/except` that logs and continues, so a raising call leaves the cache
  unchanged and execution falls through);
* `cache` — the Redis keyspace as an association list (TTL expiry is not
  modelled: the claims concern immediate successor reads);
* `storeFails` — whether database queries raise;
* `commitFails` — whether database writes (`add`/`delete`/`commit`) raise,
  in which case `db.rollback()` restores the store;
* `store` — the `feature_flags` table;
* `users` — user id to groups (the source derives groups from `User.role`
  plus RBAC `User.roles`; a failed lookup or unparsable id yields `[]`);
* `now` — `datetime.now()`.

Administrative operations return `Except String α × Env`: `.error` is an
exception propagated to the caller, and the returned `Env` is the state
after the call (unchanged when the operation rolled back). -/

structure Env where
  redisAvailable : Bool
  cacheFails : Bool
  cache : List (String × String)
  storeFails : Bool
  commitFails : Bool
  store : List FeatureFlag
  users : List (String × List String)
  now : Int
deriving DecidableEq, Repr

/-- `f"{self.cache_prefix}:evaluation:{flag_key}:"`, the prefix shared by the
evaluation-cache key of `(flag_key, user_id)` and the SCAN pattern
`...evaluation:{flag_key}:*`. -/
def evalKeyPrefix (flag_key : String) : String :=
  "jurisai:feature_flags:evaluation:" ++ flag_key ++ ":"

/-- `f"{self.cache_prefix}:evaluation:{flag_key}:{user_id}"`. -/
def evalCacheKey (flag_key user_id : String) : String :=
  evalKeyPrefix flag_key ++ user_id

/-- `f"{self.cache_prefix}:config:{flag_key}"`. -/
def configCacheKey (flag_key : String) : String :=
  "jurisai:feature_flags:config:" ++ flag_key

/-- `f"{self.cache_prefix}:user_flags:"`, the prefix of the SCAN pattern
`...user_flags:*`. -/
def userFlagsPrefix : String := "jurisai:feature_flags:user_flags:"

/-- A guarded Redis GET: skipped when `redis_client` is falsy, and a raising
GET is caught (logged) and treated as a miss. -/
def Env.cacheGet (env : Env) (k : String) : Option String :=
  if env.redisAvailable && !env.cacheFails then
    (env.cache.find? (fun kv => kv.1 == k)).map (fun kv => kv.2)
  else none

/-- A guarded Redis SETEX: skipped when `redis_client` is falsy; a raising
SETEX is caught (logged) and leaves the cache unchanged. -/
def Env.cacheSet (env : Env) (k v : String) : Env :=
  if env.redisAvailable && !env.cacheFails then
    { env with cache := (k, v) :: env.cache.filter (fun kv => kv.1 != k) }
  else env

/-- String prefix test, on the character lists. -/
def strHasPrefix (pre s : String) : Bool := pre.data.isPrefixOf s.data

/-- `FeatureFlagService._invalidate_flag_caches` (lines 316-352): deletes the
config key, every `evaluation:{flag_key}:*` key and every `user_flags:*` key.
A Redis failure is caught and logged, leaving stale entries in place.  Flag
keys are validated alphanumeric/`-`/`_`, so the glob `*` is plain prefix
matching here. -/
def invalidate_flag_caches (env : Env) (flag_key : String) : Env :=
  if !env.redisAvailable then env
  else if env.cacheFails then env
  else { env with cache := env.cache.filter (fun kv =>
      !(kv.1 == configCacheKey flag_key
        || strHasPrefix (evalKeyPrefix flag_key) kv.1
        || strHasPrefix userFlagsPrefix kv.1)) }

/-- `FeatureFlagService._get_flag_config` (lines 257-291).  The cached-config
read in the source is a no-op (`pass`): the database is always queried.  On
success the serialized flag is cached under the config key (the payload is
never read back anywhere in the service, so it is modelled by the flag key).
Any database error is caught and `None` returned. -/
def get_flag_config (env : Env) (flag_key : String) :
    Option FeatureFlag × Env :=
  if env.storeFails then (none, env)
  else
    match env.store.find? (fun f => f.key == flag_key) with
    | none => (none, env)
    | some flag => (some flag, env.cacheSet (configCacheKey flag_key) flag.key)

/-- `FeatureFlagService._get_user_groups` (lines 293-314): legacy role plus
RBAC roles, collapsed here to one lookup table; any error (including an
unparsable user id) is caught and yields `[]`. -/
def get_user_groups (env : Env) (user_id : String) : List String :=
  if env.storeFails then []
  else
    match env.users.find? (fun u => u.1 == user_id) with
    | none => []
    | some u => u.2

/-- `FeatureFlagService.is_enabled` (lines 30-83): evaluation-cache read,
then flag load, then `is_active_for_user`, then result caching.  Every
failure modelled in `Env` is caught by an inner handler (cache errors fall
through, `_get_flag_config` returns `None` on store errors), so the
function is total and the outer `except` fail-closed branch is its
`none`-flag arm; it always returns a `Bool`. -/
def is_enabled (env : Env) (flag_key user_id : String)
    (context : List (String × String)) : Bool × Env :=
  match env.cacheGet (evalCacheKey flag_key user_id) with
  | some v => (v == "1", env)
  | none =>
    match get_flag_config env flag_key with
    | (none, env1) => (false, env1)
    | (some flag, env1) =>
      let user_groups := get_user_groups env1 user_id
      let r := flag.is_active_for_user env1.now user_id user_groups context
      (r, env1.cacheSet (evalCacheKey flag_key user_id) (if r then "1" else "0"))

/-- The `flag_data` dictionary passed to `create_flag`, after the `.get`
defaults of lines 153-167 have been applied. -/
structure FlagData where
  key : String
  name : String
  enabled : Bool
  rollout_percentage : Rat
  targeted_user_ids : List String
  targeted_user_groups : List String
  excluded_user_ids : List String
  environment : String
  context_filters : List (String × String)
  start_date : Option Int
  end_date : Option Int
deriving DecidableEq, Repr

/-- `FeatureFlagService.create_flag` (lines 141-182).  Constructing
`FeatureFlag(...)` runs the column validators (key first, in keyword order)
before `db.add`/`db.commit`; a raised `ValueError` or database error is
caught, rolled back, and re-raised (`raise`). -/
def create_flag (env : Env) (flag_data : FlagData) :
    Except String FeatureFlag × Env :=
  if !validate_key flag_data.key then
    (.error "Feature flag key must contain only alphanumeric characters, hyphens, and underscores", env)
  else if !validate_rollout_percentage flag_data.rollout_percentage then
    (.error "Rollout percentage must be between 0 and 100", env)
  else
    let flag : FeatureFlag :=
      { key := flag_data.key.toLower
        name := flag_data.name
        enabled := flag_data.enabled
        rollout_percentage := flag_data.rollout_percentage
        targeted_user_ids := flag_data.targeted_user_ids
        targeted_user_groups := flag_data.targeted_user_groups
        excluded_user_ids := flag_data.excluded_user_ids
        environment := flag_data.environment
        context_filters := flag_data.context_filters
        start_date := flag_data.start_date
        end_date := flag_data.end_date }
    if env.storeFails || env.commitFails then (.error "database error", env)
    else
      let env1 := { env with store := env.store ++ [flag] }
      (.ok flag, invalidate_flag_caches env1 flag.key)

/-- The `update_data` dictionary passed to `update_flag`: `some` marks a key
present in the dictionary (the loop of lines 201-203 skips `id`, `key`,
`created_at`, `created_by`, which are therefore not representable here). -/
structure UpdateData where
  name : Option String
  enabled : Option Bool
  rollout_percentage : Option Rat
  targeted_user_ids : Option (List String)
  targeted_user_groups : Option (List String)
  excluded_user_ids : Option (List String)
  environment : Option String
  context_filters : Option (List (String × String))
  start_date : Option (Option Int)
  end_date : Option (Option Int)
deriving DecidableEq, Repr

/-- The `setattr` loop of `update_flag` (lines 201-203). -/
def applyUpdate (flag : FeatureFlag) (upd : UpdateData) : FeatureFlag :=
  { flag with
    name := upd.name.getD flag.name
    enabled := upd.enabled.getD flag.enabled
    rollout_percentage := upd.rollout_percentage.getD flag.rollout_percentage
    targeted_user_ids := upd.targeted_user_ids.getD flag.targeted_user_ids
    targeted_user_groups := upd.targeted_user_groups.getD flag.targeted_user_groups
    excluded_user_ids := upd.excluded_user_ids.getD flag.excluded_user_ids
    environment := upd.environment.getD flag.environment
    context_filters := upd.context_filters.getD flag.context_filters
    start_date := upd.start_date.getD flag.start_date
    end_date := upd.end_date.getD flag.end_date }

/-- `FeatureFlagService.update_flag` (lines 184-218): load, `setattr` each
field (firing the `rollout_percentage` validator when that key is present),
commit, then invalidate caches; errors are rolled back and re-raised. -/
def update_flag (env : Env) (flag_key : String) (update_data : UpdateData) :
    Except String (Option FeatureFlag) × Env :=
  if env.storeFails then (.error "database error", env)
  else
    match env.store.find? (fun f => f.key == flag_key) with
    | none => (.ok none, env)
    | some flag =>
      if (match update_data.rollout_percentage with
          | some p => !validate_rollout_percentage p
          | none => false) then
        (.error "Rollout percentage must be between 0 and 100", env)
      else if env.commitFails then (.error "database error", env)
      else
        let flag1 := applyUpdate flag update_data
        let env1 := { env with
          store := env.store.map (fun f => if f.key == flag_key then flag1 else f) }
        (.ok (some flag1), invalidate_flag_caches env1 flag_key)

/-- `FeatureFlagService.delete_flag` (lines 220-247).  Unlike `create_flag`
and `update_flag`, its `except` block catches every failure, rolls back, and
returns `False` — no execution path produces `.error`. -/
def delete_flag (env : Env) (flag_key : String) : Except String Bool × Env :=
  if env.storeFails then (.ok false, env)
  else
    match env.store.find? (fun f => f.key == flag_key) with
    | none => (.ok false, env)
    | some _ =>
      if env.commitFails then (.ok false, env)
      else
        let env1 := { env with store := env.store.filter (fun f => f.key != flag_key) }
        (.ok true, invalidate_flag_caches env1 flag_key)

/-! ## Claims about the evaluator (`is_active_for_user`) -/

/-- Failing input for claim C1: an enabled flag carrying the context filter
`region = west` and explicitly targeting user `u42`. -/
def flagC1 : FeatureFlag :=
  { key := "new_ui", name := "New UI", enabled := true, rollout_percentage := 0,
    targeted_user_ids := ["u42"], targeted_user_groups := [],
    excluded_user_ids := [], environment := "production",
    context_filters := [("region", "west")],
    start_date := none, end_date := none }

/-- Claim C1: the spec requires any present-but-unmatched `contextFilter` to
force `false` before targeting can return `true`.  The code never consults
`context_filters` (the `context` argument of `is_active_for_user` is dead),
so at this input — a flag whose filter `region = west` is matched by nothing
in the empty supplied context — targeting still returns `true`. -/
theorem c1_context_filter_not_enforced :
    flagC1.context_filters = [("region", "west")]
  ∧ flagC1.is_active_for_user 0 "u42" [] [] = true := by
  decide

/-- Claim C2: for an enabled flag with no time window and no context filters,
a user listed in both `excluded_user_ids` and `targeted_user_ids` evaluates
to `false` — the exclusion check precedes and overrides explicit inclusion. -/
theorem c2_exclusion_overrides_inclusion (flag : FeatureFlag) (now : Int)
    (user_id : String) (user_groups : List String)
    (context : List (String × String))
    (hen : flag.enabled = true)
    (hs : flag.start_date = none) (he : flag.end_date = none)
    (hcf : flag.context_filters = [])
    (hex : user_id ∈ flag.excluded_user_ids)
    (hin : user_id ∈ flag.targeted_user_ids) :
    flag.is_active_for_user now user_id user_groups context = false := by
  simp only [FeatureFlag.is_active_for_user, hen, hs, he]
  simp
  intro hn
  rcases hn with h | h
  · rw [h] at hex
    cases hex
  · exact absurd hex h

/-- Concrete input for the C2 witness. -/
def flagC2 : FeatureFlag :=
  { key := "beta_search", name := "Beta search", enabled := true,
    rollout_percentage := 100, targeted_user_ids := ["u1"],
    targeted_user_groups := [], excluded_user_ids := ["u1"],
    environment := "production", context_filters := [],
    start_date := none, end_date := none }

/-- Witness for C2 at a concrete flag and user. -/
theorem c2_exclusion_overrides_inclusion_witness :
    flagC2.is_active_for_user 0 "u1" [] [] = false :=
  c2_exclusion_overrides_inclusion flagC2 0 "u1" [] []
    (by decide) rfl rfl rfl (by decide) (by decide)

/-- Claim C3: for an enabled flag with `rollout_percentage = 0`, no dates, no
exclusions and no context filters, a targeted user evaluates to `true`
(explicit inclusion outranks the rollout) and a user who is neither targeted
nor in any targeted group evaluates to `false` (default off). -/
theorem c3_targeting_overrides_zero_rollout (flag : FeatureFlag) (now : Int)
    (context : List (String × String))
    (hen : flag.enabled = true)
    (hr : flag.rollout_percentage = 0)
    (hs : flag.start_date = none) (he : flag.end_date = none)
    (hexc : flag.excluded_user_ids = [])
    (hcf : flag.context_filters = []) :
    (∀ user_id, user_id ∈ flag.targeted_user_ids →
      ∀ user_groups, flag.is_active_for_user now user_id user_groups context = true)
  ∧ (∀ user_id user_groups, user_id ∉ flag.targeted_user_ids →
      (∀ g ∈ user_groups, g ∉ flag.targeted_user_groups) →
      flag.is_active_for_user now user_id user_groups context = false) := by
  constructor
  · intro user_id hmem user_groups
    simp [FeatureFlag.is_active_for_user, hen, hs, he, hexc]
    exact Or.inl ⟨List.ne_nil_of_mem hmem, hmem⟩
  · intro user_id user_groups hnmem hng
    simp [FeatureFlag.is_active_for_user, hen, hs, he, hexc, hr]
    exact ⟨fun _ => hnmem, fun _ _ => hng⟩

/-- Concrete input for the C3 witness (the spec's `dark_mode` scenario). -/
def flagC3 : FeatureFlag :=
  { key := "dark_mode", name := "Dark mode", enabled := true,
    rollout_percentage := 0, targeted_user_ids := ["u42"],
    targeted_user_groups := [], excluded_user_ids := [],
    environment := "production", context_filters := [],
    start_date := none, end_date := none }

/-- Witness for C3 at the spec's scenario: `u42` (targeted) on, `u99` off. -/
theorem c3_targeting_overrides_zero_rollout_witness :
    flagC3.is_active_for_user 0 "u42" [] [] = true
  ∧ flagC3.is_active_for_user 0 "u99" [] [] = false := by
  have h := c3_targeting_overrides_zero_rollout flagC3 0 []
    (by decide) (by decide) rfl rfl rfl rfl
  exact ⟨h.1 "u42" (by decide) [], h.2 "u99" [] (by decide) (by simp)⟩

/-- Claim C4: the bucketing computation is a deterministic function of the
flag key and the subject id alone (the embedding of the source expression is
a pure function, so equal inputs give equal buckets), and its value is
always in `[0, 100)`. -/
theorem c4_bucket_range_and_deterministic (flagKey subjectID : String) :
    bucket flagKey subjectID < 100
  ∧ (∀ k u : String, k = flagKey → u = subjectID →
      bucket k u = bucket flagKey subjectID) := by
  refine ⟨?_, fun k u hk hu => by rw [hk, hu]⟩
  show md5int (flagKey ++ ":" ++ subjectID) % 100 < 100
  exact Nat.mod_lt _ (by norm_num)

/-- Witness for C4 at a concrete flag key and subject id (the bucket value 29
matches CPython's `int(md5(b"dark_mode:u42").hexdigest(), 16) % 100`). -/
theorem c4_bucket_range_and_deterministic_witness :
    bucket "dark_mode" "u42" = 29
  ∧ bucket "dark_mode" "u42" < 100
  ∧ bucket "dark_mode" "u42" = bucket "dark_mode" "u42" :=
  ⟨by decide, (c4_bucket_range_and_deterministic "dark_mode" "u42").1,
    (c4_bucket_range_and_deterministic "dark_mode" "u42").2 "dark_mode" "u42" rfl rfl⟩

/-- Counterexample input for claim C7: an enabled flag targeting `u42`, with
environment label `development`. -/
def flagC7 : FeatureFlag :=
  { key := "beta_search", name := "Beta search", enabled := true,
    rollout_percentage := 0, targeted_user_ids := ["u42"],
    targeted_user_groups := [], excluded_user_ids := [],
    environment := "development", context_filters := [],
    start_date := none, end_date := none }

/-- Claim C7 counterexample: two flags identical except for their environment
labels (`development` vs `production`) both evaluate to `true` for the same
subject.  Whatever single environment the evaluator is taken to run in, at
least one of the two labels differs from it, yet that flag is still on — so
evaluation does not turn off flags of a non-matching environment. -/
theorem c7_counterexample :
    flagC7.environment = "development"
  ∧ flagC7.is_active_for_user 0 "u42" [] [] = true
  ∧ ({ flagC7 with environment := "production" } : FeatureFlag).is_active_for_user
      0 "u42" [] [] = true := by
  decide

/-- Rewrite a flag's environment label, leaving every other field alone. -/
def setEnvLabel (e : String) (f : FeatureFlag) : FeatureFlag :=
  { f with environment := e }

/-- Rewrite the environment label of every flag in the store. -/
def relabelStore (e : String) (env : Env) : Env :=
  { env with store := env.store.map (setEnvLabel e) }

theorem get_user_groups_cacheSet (env : Env) (k v user_id : String) :
    get_user_groups (env.cacheSet k v) user_id = get_user_groups env user_id := by
  unfold Env.cacheSet
  split <;> rfl

theorem now_cacheSet (env : Env) (k v : String) :
    (env.cacheSet k v).now = env.now := by
  unfold Env.cacheSet
  split <;> rfl

/-- The `is_enabled` result is invariant under relabeling every stored flag's
environment: the service never reads the `environment` column. -/
theorem is_enabled_relabel (e : String) (env : Env) (flag_key user_id : String)
    (context : List (String × String)) :
    (is_enabled (relabelStore e env) flag_key user_id context).1
  = (is_enabled env flag_key user_id context).1 := by
  unfold is_enabled
  have hcg : Env.cacheGet (relabelStore e env) (evalCacheKey flag_key user_id)
      = env.cacheGet (evalCacheKey flag_key user_id) := rfl
  rw [hcg]
  cases hget : env.cacheGet (evalCacheKey flag_key user_id) with
  | some v => rfl
  | none =>
    unfold get_flag_config
    have hsf : (relabelStore e env).storeFails = env.storeFails := rfl
    rw [hsf]
    cases hst : env.storeFails with
    | true => rfl
    | false =>
      have hstore : (relabelStore e env).store = env.store.map (setEnvLabel e) := rfl
      rw [hstore, List.find?_map]
      have hcomp : ((fun f : FeatureFlag => f.key == flag_key) ∘ setEnvLabel e)
          = (fun f : FeatureFlag => f.key == flag_key) := rfl
      rw [hcomp]
      cases hfind : env.store.find? (fun f : FeatureFlag => f.key == flag_key) with
      | none => rfl
      | some f =>
        simp only [Option.map_some', Bool.false_eq_true, if_false]
        rw [get_user_groups_cacheSet, get_user_groups_cacheSet, now_cacheSet, now_cacheSet]
        rfl

/-- Claim C7 (amended): evaluation never consults the flag's `environment`
label — `is_active_for_user` returns identical results under any relabeling
of the flag, and `is_enabled` returns identical results over a store whose
flags are all relabeled. -/
theorem c7_environment_not_consulted (e1 e2 : String) :
    (∀ (flag : FeatureFlag) (now : Int) (user_id : String)
        (user_groups : List String) (context : List (String × String)),
      (setEnvLabel e1 flag).is_active_for_user now user_id user_groups context
        = (setEnvLabel e2 flag).is_active_for_user now user_id user_groups context)
  ∧ (∀ (env : Env) (flag_key user_id : String) (context : List (String × String)),
      (is_enabled (relabelStore e1 env) flag_key user_id context).1
        = (is_enabled (relabelStore e2 env) flag_key user_id context).1) := by
  constructor
  · intro flag now user_id user_groups context
    rfl
  · intro env flag_key user_id context
    rw [is_enabled_relabel, is_enabled_relabel]

/-! ## Claims about the service (`is_enabled`, admin operations) -/

/-- The stored flag for the C5 input: enabled and targeting `u7`. -/
def flagC5 : FeatureFlag :=
  { key := "beta_search", name := "Beta search", enabled := true,
    rollout_percentage := 0, targeted_user_ids := ["u7"],
    targeted_user_groups := [], excluded_user_ids := [],
    environment := "production", context_filters := [],
    start_date := none, end_date := none }

/-- Counterexample input for claim C5: Redis reachable but raising on every
call, store healthy and holding `flagC5`. -/
def envC5 : Env :=
  { redisAvailable := true, cacheFails := true, cache := [],
    storeFails := false, commitFails := false, store := [flagC5], users := [],
    now := 0 }

/-- Claim C5 counterexample: the cache being unreachable is an internal error
(caught and logged as a warning), yet `is_enabled` does not return the
fail-closed `false` — it falls through to the store and returns `true`. -/
theorem c5_counterexample :
    envC5.cacheFails = true
  ∧ (is_enabled envC5 "beta_search" "u7" []).1 = true := by
  decide

/-- Claim C5 (amended): `is_enabled` is a total Boolean function — every
exception path of the source is caught and resolved to a `Bool` — and when
the flag cannot be loaded (store unreachable) and no cached evaluation is
available it returns the fail-closed `false`.  A cache error alone merely
falls through to the store. -/
theorem c5_fail_closed_on_store_error (env : Env) (flag_key user_id : String)
    (context : List (String × String))
    (hstore : env.storeFails = true)
    (hmiss : env.cacheGet (evalCacheKey flag_key user_id) = none) :
    (is_enabled env flag_key user_id context).1 = false := by
  unfold is_enabled
  rw [hmiss]
  unfold get_flag_config
  rw [hstore]
  rfl

/-- Witness input for the amended C5: no Redis, store down. -/
def envC5w : Env :=
  { redisAvailable := false, cacheFails := false, cache := [],
    storeFails := true, commitFails := false, store := [], users := [],
    now := 0 }

/-- Witness for the amended C5 at a concrete environment. -/
theorem c5_fail_closed_on_store_error_witness :
    (is_enabled envC5w "beta_search" "u7" []).1 = false :=
  c5_fail_closed_on_store_error envC5w "beta_search" "u7" [] rfl rfl

/-- Counterexample input for claim C8: a well-formed key and percentage but
an end date (5) strictly before the start date (10). -/
def dataC8 : FlagData :=
  { key := "beta", name := "Beta", enabled := true, rollout_percentage := 50,
    targeted_user_ids := [], targeted_user_groups := [],
    excluded_user_ids := [], environment := "production",
    context_filters := [], start_date := some 10, end_date := some 5 }

/-- A quiescent environment for the C8 input. -/
def envC8 : Env :=
  { redisAvailable := false, cacheFails := false, cache := [],
    storeFails := false, commitFails := false, store := [], users := [],
    now := 0 }

/-- Claim C8 counterexample: no date-ordering validation exists — a flag
whose end date precedes its start date is accepted by `create_flag` and
written to the store instead of raising a validation error. -/
theorem c8_counterexample :
    dataC8.start_date = some 10 ∧ dataC8.end_date = some 5
  ∧ (create_flag envC8 dataC8).1.toOption.isSome = true
  ∧ (create_flag envC8 dataC8).2.store.length = 1 := by
  decide

/-- Claim C8 (amended): `create_flag` validates the rollout percentage and
the key format when constructing the model object, before any store write —
on either violation it raises and the store is untouched; the end-before-
start case is not validated (see the counterexample). -/
theorem c8_validation_before_write (env : Env) (flag_data : FlagData)
    (hbad : validate_key flag_data.key = false
          ∨ validate_rollout_percentage flag_data.rollout_percentage = false) :
    (create_flag env flag_data).1.toOption = none
  ∧ (create_flag env flag_data).2 = env := by
  rcases hbad with h | h
  · constructor
    · simp [create_flag, h, Except.toOption]
    · simp [create_flag, h]
  · by_cases hk : validate_key flag_data.key = true
    · constructor
      · simp [create_flag, h, hk, Except.toOption]
      · simp [create_flag, h, hk]
    · constructor
      · simp [create_flag, hk, Except.toOption]
      · simp [create_flag, hk]

/-- Witness input for the amended C8: a valid key with percentage 150. -/
def dataC8bad : FlagData :=
  { key := "beta2", name := "Beta two", enabled := false,
    rollout_percentage := 150, targeted_user_ids := [],
    targeted_user_groups := [], excluded_user_ids := [],
    environment := "production", context_filters := [],
    start_date := none, end_date := none }

/-- Witness for the amended C8 at a concrete out-of-range percentage. -/
theorem c8_validation_before_write_witness :
    (create_flag envC8 dataC8bad).1.toOption = none
  ∧ (create_flag envC8 dataC8bad).2 = envC8 :=
  c8_validation_before_write envC8 dataC8bad (Or.inr (by decide))

/-- The stored flag for the C9 input. -/
def flagC9 : FeatureFlag :=
  { key := "old_flag", name := "Old flag", enabled := true,
    rollout_percentage := 0, targeted_user_ids := [],
    targeted_user_groups := [], excluded_user_ids := [],
    environment := "production", context_filters := [],
    start_date := none, end_date := none }

/-- Counterexample input for claim C9: the flag exists but the store delete
(`db.delete`/`db.commit`) raises. -/
def envC9 : Env :=
  { redisAvailable := false, cacheFails := false, cache := [],
    storeFails := false, commitFails := true, store := [flagC9], users := [],
    now := 0 }

/-- Claim C9 counterexample: with the store delete failing, `delete_flag`
catches the exception, rolls back, and returns `False` to its caller — it
does not propagate the error as the claim states. -/
theorem c9_counterexample :
    envC9.commitFails = true
  ∧ (delete_flag envC9 "old_flag").1.toOption = some false
  ∧ (delete_flag envC9 "old_flag").2 = envC9 := by
  decide

/-- Claim C9 (amended): `delete_flag` never raises — every path returns a
Boolean — and on any store failure it returns `False` with the state rolled
back unchanged (unlike `create_flag`/`update_flag`, which re-raise). -/
theorem c9_delete_swallows_errors (env : Env) (flag_key : String) :
    (∃ b, (delete_flag env flag_key).1 = .ok b)
  ∧ ((env.storeFails = true ∨ env.commitFails = true) →
      (delete_flag env flag_key).1 = .ok false
      ∧ (delete_flag env flag_key).2 = env) := by
  unfold delete_flag
  cases hsf : env.storeFails with
  | true => exact ⟨⟨false, rfl⟩, fun _ => ⟨rfl, rfl⟩⟩
  | false =>
    cases hfind : env.store.find? (fun f => f.key == flag_key) with
    | none => exact ⟨⟨false, rfl⟩, fun _ => ⟨rfl, rfl⟩⟩
    | some f =>
      cases hcf : env.commitFails with
      | true => exact ⟨⟨false, rfl⟩, fun _ => ⟨rfl, rfl⟩⟩
      | false =>
        refine ⟨⟨true, rfl⟩, ?_⟩
        rintro (h | h) <;> cases h

/-- Witness for the amended C9 at a concrete failing environment. -/
theorem c9_delete_swallows_errors_witness :
    (∃ b, (delete_flag envC9 "old_flag").1 = .ok b)
  ∧ ((delete_flag envC9 "old_flag").1 = .ok false
      ∧ (delete_flag envC9 "old_flag").2 = envC9) :=
  ⟨(c9_delete_swallows_errors envC9 "old_flag").1,
   (c9_delete_swallows_errors envC9 "old_flag").2 (Or.inr rfl)⟩

theorem strHasPrefix_append (pre u : String) : strHasPrefix pre (pre ++ u) = true := by
  unfold strHasPrefix
  rw [String.data_append]
  simp

theorem invalidate_store (env : Env) (k : String) :
    (invalidate_flag_caches env k).store = env.store := by
  unfold invalidate_flag_caches
  cases env.redisAvailable <;> cases env.cacheFails <;> rfl

/-- Redis health between two service calls: the key-value content is kept,
only reachability changes (a transient outage beginning or ending).  No
flag-system write happens in such a transition. -/
def setCacheHealth (ra cf : Bool) (env : Env) : Env :=
  { env with redisAvailable := ra, cacheFails := cf }

/-- When the cache was reachable during the invalidation, the evaluation
entry is gone afterwards, whatever the cache's health at read time. -/
theorem cacheGet_health_after_invalidate (env : Env) (ra cf : Bool)
    (flag_key user_id : String)
    (hra : env.redisAvailable = true) (hcf : env.cacheFails = false) :
    (setCacheHealth ra cf (invalidate_flag_caches env flag_key)).cacheGet
      (evalCacheKey flag_key user_id) = none := by
  unfold setCacheHealth Env.cacheGet invalidate_flag_caches
  simp only [hra, hcf, Bool.not_true, Bool.not_false, Bool.false_eq_true,
    if_false, if_true]
  cases hh : (ra && !cf) with
  | false => simp [hh]
  | true =>
    simp [hh]
    intro a b hmem h1 h2 h3 heq
    rw [heq] at h2
    have hpre : strHasPrefix (evalKeyPrefix flag_key) (evalCacheKey flag_key user_id) = true :=
      strHasPrefix_append (evalKeyPrefix flag_key) user_id
    rw [hpre] at h2
    simp at h2

/-- `is_enabled` returns `false` whenever the evaluation cache misses and the
store row found for the key is disabled. -/
theorem is_enabled_flag_disabled (env : Env) (flag_key user_id : String)
    (context : List (String × String)) (flag : FeatureFlag)
    (hmiss : env.cacheGet (evalCacheKey flag_key user_id) = none)
    (hfind : env.store.find? (fun f => f.key == flag_key) = some flag)
    (hdis : flag.enabled = false) :
    (is_enabled env flag_key user_id context).1 = false := by
  unfold is_enabled
  rw [hmiss]
  unfold get_flag_config
  cases hsf : env.storeFails with
  | true => rfl
  | false =>
    rw [hfind]
    show flag.is_active_for_user _ user_id _ context = false
    simp [FeatureFlag.is_active_for_user, hdis]

/-- Replacing the store row whose key matched with a flag of the same key is
transparent to `find?` by key. -/
theorem find?_update_store (store : List FeatureFlag) (flag_key : String)
    (flag flag1 : FeatureFlag)
    (hfind : store.find? (fun f => f.key == flag_key) = some flag)
    (hk1 : flag1.key = flag.key) :
    (store.map (fun f => if f.key == flag_key then flag1 else f)).find?
      (fun f => f.key == flag_key) = some flag1 := by
  have hkey : (flag.key == flag_key) = true := by
    have h := List.find?_some hfind
    simpa using h
  rw [List.find?_map]
  have hpg : ((fun f : FeatureFlag => f.key == flag_key)
      ∘ (fun f => if f.key == flag_key then flag1 else f))
      = fun f : FeatureFlag => f.key == flag_key := by
    funext f
    by_cases hf : (f.key == flag_key) = true
    · simp [Function.comp, hf, hk1, hkey]
    · simp [Function.comp, hf]
  rw [hpg, hfind]
  simp [hkey]
  intro h
  exact absurd (eq_of_beq hkey) h

theorem setCacheHealth_store (ra cf : Bool) (env : Env) :
    (setCacheHealth ra cf env).store = env.store := rfl

/-- Claim C6 (amended): when the cache is reachable during the update,
`_invalidate_flag_caches` deletes the config entry and every
`evaluation:{key}:*` entry synchronously before `update_flag` returns, so a
subsequent `is_enabled` for that key — whatever the cache's health at read
time — returns `false` for every user and context.  If instead the
invalidation's Redis calls raise, the error is caught and logged,
`update_flag` still returns success, the stale entry survives, and a later
read with a healthy cache returns the stale cached `true` (bounded
staleness; see the counterexample). -/
theorem c6_invalidation_ok_then_read_false (env : Env) (flag_key user_id : String)
    (context : List (String × String)) (upd : UpdateData) (flag : FeatureFlag)
    (ra cf : Bool)
    (hstore : env.storeFails = false) (hcommit : env.commitFails = false)
    (hra : env.redisAvailable = true) (hcf : env.cacheFails = false)
    (hfind : env.store.find? (fun f => f.key == flag_key) = some flag)
    (hupd : upd.enabled = some false)
    (hvp : upd.rollout_percentage = none) :
    (update_flag env flag_key upd).1.toOption = some (some (applyUpdate flag upd))
  ∧ (applyUpdate flag upd).enabled = false
  ∧ (is_enabled (setCacheHealth ra cf (update_flag env flag_key upd).2)
      flag_key user_id context).1 = false := by
  have hdis : (applyUpdate flag upd).enabled = false := by
    simp [applyUpdate, hupd]
  have hupdate : update_flag env flag_key upd
      = (.ok (some (applyUpdate flag upd)),
         invalidate_flag_caches
           { env with
             store := env.store.map (fun f => if f.key == flag_key then applyUpdate flag upd else f) }
           flag_key) := by
    unfold update_flag
    rw [hstore, hfind, hvp, hcommit]
    rfl
  refine ⟨by rw [hupdate]; rfl, hdis, ?_⟩
  rw [hupdate]
  apply is_enabled_flag_disabled _ _ _ _ (applyUpdate flag upd)
  · exact cacheGet_health_after_invalidate _ ra cf flag_key user_id hra hcf
  · rw [setCacheHealth_store, invalidate_store]
    exact find?_update_store env.store flag_key flag (applyUpdate flag upd) hfind rfl
  · exact hdis

/-- The stored flag for the C6 witness: enabled at 100% rollout. -/
def flagC6 : FeatureFlag :=
  { key := "dark_mode", name := "Dark mode", enabled := true,
    rollout_percentage := 100, targeted_user_ids := [],
    targeted_user_groups := [], excluded_user_ids := [],
    environment := "production", context_filters := [],
    start_date := none, end_date := none }

/-- Witness input for C6: healthy store and cache, plus a stale cached `"1"`
for `(dark_mode, u1)` that the invalidation must delete. -/
def envC6 : Env :=
  { redisAvailable := true, cacheFails := false,
    cache := [("jurisai:feature_flags:evaluation:dark_mode:u1", "1")],
    storeFails := false, commitFails := false, store := [flagC6], users := [],
    now := 0 }

/-- The update data for the C6 witness: just `enabled = false`. -/
def updC6 : UpdateData :=
  { name := none, enabled := some false, rollout_percentage := none,
    targeted_user_ids := none, targeted_user_groups := none,
    excluded_user_ids := none, environment := none, context_filters := none,
    start_date := none, end_date := none }

/-- Witness for the amended C6 at a concrete environment with a stale cache
entry, read back with the cache healthy. -/
theorem c6_invalidation_ok_then_read_false_witness :
    (update_flag envC6 "dark_mode" updC6).1.toOption
        = some (some (applyUpdate flagC6 updC6))
  ∧ (applyUpdate flagC6 updC6).enabled = false
  ∧ (is_enabled (setCacheHealth true false (update_flag envC6 "dark_mode" updC6).2)
      "dark_mode" "u1" []).1 = false :=
  c6_invalidation_ok_then_read_false envC6 "dark_mode" "u1" [] updC6 flagC6
    true false rfl rfl rfl rfl rfl rfl rfl

-- Before the update, the same environment serves the stale cached `true`.
example : (is_enabled envC6 "dark_mode" "u1" []).1 = true := by decide

/-- Counterexample input for claim C6: same as `envC6` but Redis is raising
while `update_flag` runs, so `_invalidate_flag_caches` fails (caught and
logged) and the stale entry survives. -/
def envC6bad : Env :=
  { redisAvailable := true, cacheFails := true,
    cache := [("jurisai:feature_flags:evaluation:dark_mode:u1", "1")],
    storeFails := false, commitFails := false, store := [flagC6], users := [],
    now := 0 }

/-- The state when the next read runs: the transient Redis outage has ended
(no flag-system write happened in between, only the cache became reachable
again). -/
def envC6recovered : Env :=
  setCacheHealth true false (update_flag envC6bad "dark_mode" updC6).2

/-- Claim C6 counterexample: `update_flag` disables the flag and returns
success even though its cache invalidation raised (the Redis error is caught
and logged inside `_invalidate_flag_caches`); the stale evaluation entry
survives, and the next `is_enabled`, whose cache read succeeds, returns the
stale `true` — so a successful update does not guarantee the subsequent read
observes `false`. -/
theorem c6_counterexample :
    (update_flag envC6bad "dark_mode" updC6).1.toOption
        = some (some (applyUpdate flagC6 updC6))
  ∧ (applyUpdate flagC6 updC6).enabled = false
  ∧ envC6recovered.cache
        = [("jurisai:feature_flags:evaluation:dark_mode:u1", "1")]
  ∧ (is_enabled envC6recovered "dark_mode" "u1" []).1 = true := by
  decide

/-- Counterexample input for claim C10: an empty store but a (stale)
evaluation-cache entry claiming flag `ghost` is on for `u1`. -/
def envC10 : Env :=
  { redisAvailable := true, cacheFails := false,
    cache := [("jurisai:feature_flags:evaluation:ghost:u1", "1")],
    storeFails := false, commitFails := false, store := [], users := [],
    now := 0 }

/-- Claim C10 counterexample: the evaluation cache is consulted before the
store, so a flag key absent from the store can still evaluate to `true` from
a stale cache entry — the unknown-flag case is not unconditionally `false`. -/
theorem c10_counterexample :
    envC10.store = []
  ∧ (is_enabled envC10 "ghost" "u1" []).1 = true := by
  decide

/-- Claim C10 (amended): for a flag key with no row in the store,
`is_enabled` returns `false` for every user and context — without raising —
provided the evaluation cache holds no entry for that flag and user (a stale
cache hit, if present, is returned as-is before the store is consulted). -/
theorem c10_unknown_flag_fail_closed (env : Env) (flag_key user_id : String)
    (context : List (String × String))
    (hnone : env.store.find? (fun f => f.key == flag_key) = none)
    (hmiss : env.cacheGet (evalCacheKey flag_key user_id) = none) :
    (is_enabled env flag_key user_id context).1 = false := by
  unfold is_enabled
  rw [hmiss]
  unfold get_flag_config
  cases hsf : env.storeFails with
  | true => rfl
  | false =>
    rw [hnone]
    rfl

/-- Witness input for the amended C10: empty store, empty cache. -/
def envC10w : Env :=
  { redisAvailable := false, cacheFails := false, cache := [],
    storeFails := false, commitFails := false, store := [], users := [],
    now := 0 }

/-- Witness for the amended C10 at a concrete environment. -/
theorem c10_unknown_flag_fail_closed_witness :
    (is_enabled envC10w "ghost" "u1" []).1 = false :=
  c10_unknown_flag_fail_closed envC10w "ghost" "u1" [] rfl rfl

end JurisAI
